import Mathlib

/-!
# Verification of the list-api saved-item engine

A shallow embedding of the saved-item mutation and consistency engine:
the row transform (`convert`, `transformListRow`), the bulk archive
operation (`saveArchive` over a modelled `archiveListRow`), the upsert
orchestrator (`upsertSavedItem`), the tag mutations
(`updateSavedItemTags`, `updateSavedItemRemoveTags`) and the mutation
resolver wrapping (`executeMutation`).  Stateful code is embedded as
explicit state passing over list-backed stores; fallible code returns
`Except`; emitted domain events are collected in a list.
-/

namespace ListApi

/-- A raw MySQL datetime column value: either the all-zero sentinel
`'0000-00-00 00:00:00'` or a real timestamp (modelled as a natural). -/
inductive MysqlDate where
  | zero : MysqlDate
  | time : Nat → MysqlDate
deriving DecidableEq

/-- Modelled from the spec: `mysqlDateConvert` (dataService/utils, missing
from src) validates MySQL date responses, filtering out (returning null)
the all-zero sentinel values like `'0000-00-00 00:00:00'`. -/
def mysqlDateConvert : MysqlDate → Option Nat
  | MysqlDate.zero => none
  | MysqlDate.time t => some t

/-- Modelled from the spec: the `PocketSaveStatus` enum (types module,
missing from src); lifecycle states of a save. -/
inductive SaveStatus where
  | UNREAD : SaveStatus
  | ARCHIVED : SaveStatus
  | DELETED : SaveStatus
  | HIDDEN : SaveStatus
deriving DecidableEq

/-- Modelled from the spec: the numeric codes of `PocketSaveStatus`
(missing from src): 0 → UNREAD, 1 → ARCHIVED, 2 → DELETED and a HIDDEN
variant, taken as the remaining small integer 3.  `statusMap` itself is in
src (part_001): a lookup keyed by the enum's numeric values; looking up a
code outside the domain yields `undefined`, embedded as `none`. -/
def statusMap : Nat → Option SaveStatus
  | 0 => some SaveStatus.UNREAD
  | 1 => some SaveStatus.ARCHIVED
  | 2 => some SaveStatus.DELETED
  | 3 => some SaveStatus.HIDDEN
  | _ => none

/-- A raw row of the `list` table (src part_001, `RawListResult`). -/
structure RawListResult where
  api_id : String
  api_id_updated : Nat
  favorite : Nat
  given_url : String
  item_id : Nat
  resolved_id : Nat
  status : Nat
  time_added : MysqlDate
  time_favorited : MysqlDate
  time_read : MysqlDate
  time_updated : MysqlDate
  title : String
  user_id : Nat
deriving DecidableEq

/-- A converted row (src part_001, `ListResult`).  At runtime the `status`
field holds `statusMap[row.status]`, which is `undefined` for codes
outside the mapping domain, and the date fields hold `null` where the raw
column held the zero sentinel; both are embedded as `Option`. -/
structure ListResult where
  api_id : String
  api_id_updated : Nat
  favorite : Nat
  given_url : String
  item_id : Nat
  resolved_id : Nat
  status : Option SaveStatus
  time_added : Option Nat
  time_favorited : Option Nat
  time_read : Option Nat
  time_updated : Option Nat
  title : String
  user_id : Nat
deriving DecidableEq

/-- `convert` (src part_001 lines 56-73): raw MySQL list row to the
desired list row; status ints through `statusMap`, date columns through
`mysqlDateConvert`. -/
def convert (row : RawListResult) : ListResult :=
  { api_id := row.api_id
    api_id_updated := row.api_id_updated
    favorite := row.favorite
    given_url := row.given_url
    item_id := row.item_id
    resolved_id := row.resolved_id
    status := statusMap row.status
    time_added := mysqlDateConvert row.time_added
    time_favorited := mysqlDateConvert row.time_favorited
    time_read := mysqlDateConvert row.time_read
    time_updated := mysqlDateConvert row.time_updated
    title := row.title
    user_id := row.user_id }

/-- The `PocketSave` entity (src part_000). -/
structure PocketSave where
  archived : Bool
  archivedAt : Option Nat
  createdAt : Option Nat
  deletedAt : Option Nat
  favorite : Bool
  favoritedAt : Option Nat
  givenUrl : String
  id : String
  resolvedId : String
  status : Option SaveStatus
  title : String
  updatedAt : Option Nat
deriving DecidableEq

/-- `PocketSaveModel.transformListRow` (src part_000 lines 22-39):
transform a List Table row into a `PocketSave`. -/
def transformListRow (row : ListResult) : PocketSave :=
  { archived := row.status = some SaveStatus.ARCHIVED
    archivedAt := if row.status = some SaveStatus.ARCHIVED then row.time_read else none
    createdAt := row.time_added
    deletedAt := if row.status = some SaveStatus.DELETED then row.time_updated else none
    favorite := row.favorite = 1
    favoritedAt := if row.favorite = 1 then row.time_favorited else none
    givenUrl := row.given_url
    id := toString row.item_id
    resolvedId := toString row.resolved_id
    status := row.status
    title := row.title
    updatedAt := row.time_updated }

/-- The `NotFound` payload element (src part_000, `notFoundPayload`):
`__typename` is embedded as the field `typename`. -/
structure NotFoundInternal where
  message : String
  typename : String
deriving DecidableEq

/-- A `NotFound` payload element with the mutation path attached
(src part_000, `formatSaveWriteMutationPayload`); the path value produced
by `context.models.baseError.path` is treated as an opaque string. -/
structure ResolvedError where
  message : String
  typename : String
  path : String
deriving DecidableEq

/-- The payload of the bulk save-write mutations (src part_000). -/
structure SaveWriteMutationPayload where
  save : List PocketSave
  errors : List ResolvedError
deriving DecidableEq

/-- `PocketSaveModel.notFoundPayload` (src part_000 lines 41-44). -/
def notFoundPayload (key value : String) : NotFoundInternal :=
  { message := s!"Entity identified by key={key}, value={value} was not found."
    typename := "NotFound" }

/-- `PocketSaveModel.formatSaveWriteMutationPayload` (src part_000 lines
183-198): one `NotFound` error per missing id, transformed rows as the
save list, and the resolver path attached to each error. -/
def formatSaveWriteMutationPayload (missing : List String) (updated : List ListResult)
    (resolvedPath : String) : SaveWriteMutationPayload :=
  let errors :=
    if missing.length > 0 then missing.map (fun missingId => notFoundPayload "id" missingId)
    else []
  let save := updated.map transformListRow
  let resolvedErrors := errors.map (fun error =>
    { message := error.message, typename := error.typename, path := resolvedPath })
  { save := save, errors := resolvedErrors }

/-- `parseInt` applied to an item id string (src part_000,
`ids.map((id) => parseInt(id))`): the decimal value of the digit string
(item ids are decimal numerals). -/
def parseIntId (s : String) : Nat :=
  s.data.foldl (fun n c => n * 10 + (c.toNat - 48)) 0

/-- Modelled from the spec: `uniqueArray` (dataService/utils, missing from
src) deduplicates the identifier list (spec section 4.4 step 1). -/
def uniqueArray (l : List Nat) : List Nat := l.dedup

/-- Does a list row for `(userId, itemId)` exist in the store? -/
def rowExists (store : List RawListResult) (userId itemId : Nat) : Bool :=
  store.any (fun r => r.user_id == userId && r.item_id == itemId)

/-- Modelled from the spec: the per-row effect of the conditional bulk
archive update of `PocketSaveDataService.archiveListRow` (missing from
src).  The update is scoped to `(userId, id ∈ input, status ≠ ARCHIVED)`
— spec section 4.4's status pre-condition together with the in-src doc
comment of `saveArchive` (part_000 lines 62-63): an already-archived save
is a no-op and no changes occur.  Archiving sets status ARCHIVED (code 1)
and stamps the archived-at column `time_read` (spec section 4.1). -/
def archiveUpd (userId : Nat) (ids : List Nat) (ts : Nat) (r : RawListResult) : RawListResult :=
  if r.user_id = userId ∧ r.item_id ∈ ids ∧ r.status ≠ 1 then
    { r with status := 1, time_read := MysqlDate.time ts }
  else r

/-- Modelled from the spec: `PocketSaveDataService.archiveListRow`
(dataService, missing from src).  Spec section 4.4: one conditional bulk
update against the store for the input identifier set, then one bulk read
over the same set scoped to the owning user; every input identifier absent
from the read result is classified missing; the read rows are converted
and returned as the updated list. -/
def archiveListRow (store : List RawListResult) (userId : Nat) (ids : List Nat) (ts : Nat) :
    List RawListResult × List ListResult × List String :=
  let store2 := store.map (archiveUpd userId ids ts)
  let updated := (store2.filter (fun r => r.user_id == userId && ids.contains r.item_id)).map convert
  let missing := (ids.filter (fun i => !(rowExists store2 userId i))).map (fun i => toString i)
  (store2, updated, missing)

/-- `PocketSaveModel.saveArchive` (src part_000 lines 74-93): parse and
deduplicate the ids, run the bulk archive, format the payload.  The store
and the caller's user id stand for the database and request context. -/
def saveArchive (store : List RawListResult) (userId : Nat) (ids : List String)
    (timestamp : Nat) (path : String) : List RawListResult × SaveWriteMutationPayload :=
  let uniqueIds := uniqueArray (ids.map (fun id => parseIntId id))
  let res := archiveListRow store userId uniqueIds timestamp
  (res.1, formatSaveWriteMutationPayload res.2.2 res.2.1 path)

/-- The GraphQL-side `SavedItem` entity as used by the mutation resolvers
(src part_002): only the fields the orchestrator reads are carried. -/
structure SavedItem where
  id : String
  url : String
  isFavorite : Bool
  isArchived : Bool
deriving DecidableEq

/-- `SavedItemUpsertInput` (src part_002). -/
structure SavedItemUpsertInput where
  url : String
  isFavorite : Bool
deriving DecidableEq

/-- The item returned by the external resolver capability
`ParserCaller.getOrCreateItem` (consumed as an opaque capability). -/
structure ParserItem where
  itemId : Nat
  resolvedId : Option Nat
deriving DecidableEq

/-- Modelled from the spec: `SavedItemDataService.getSavedItemById`
(dataService/queryServices, missing from src): fetch one saved item by id,
scoped to the caller; absent or cross-user rows give null. -/
def getSavedItemById (items : List SavedItem) (id : String) : Option SavedItem :=
  items.find? (fun it => it.id == id)

/-- Modelled from the spec: `SavedItemMutationService.upsertSavedItem`
(dataService/mutationServices, missing from src).  Spec section 4.5: a new
add inserts a row honoring the requested favorite flag as given; for an
existing item the write updates the row with the input's favorite flag and
status returns to UNREAD implicitly via the write (unarchived). -/
def mutationUpsertSavedItem (items : List SavedItem) (parserItem : ParserItem)
    (input : SavedItemUpsertInput) : List SavedItem :=
  let id := toString parserItem.itemId
  if items.any (fun it => it.id == id) then
    items.map (fun it =>
      if it.id == id then
        { it with url := input.url, isFavorite := input.isFavorite, isArchived := false }
      else it)
  else
    items ++ [{ id := id, url := input.url, isFavorite := input.isFavorite, isArchived := false }]

/-- The domain event kinds (`EventType`, businessEvents module; the names
are literal in src part_002). -/
inductive EventType where
  | ADD_ITEM | ARCHIVE_ITEM | UNARCHIVE_ITEM | FAVORITE_ITEM | UNFAVORITE_ITEM
  | DELETE_ITEM | ADD_TAGS | REPLACE_TAGS | REMOVE_TAGS | CLEAR_TAGS
deriving DecidableEq

/-- One call to `context.emitItemEvent` (the event emission gateway):
kind, the saved-item snapshot passed (null-able in src), and the auxiliary
tag names when given. -/
structure Emitted where
  kind : EventType
  item : Option SavedItem
  tags : List String
deriving DecidableEq

/-- The error taxonomy surfaced by the mutation resolvers (src part_002:
`UserInputError`, `NotFoundError`, and the generic upsert failure carrying
the original url). -/
inductive ApiError where
  | validation : String → ApiError
  | notFound : String → ApiError
  | upsertFailure : String → ApiError
deriving DecidableEq

/-- `upsertSavedItem` (src part_002 lines 37-89): the upsert orchestrator.
The store of the user's saved items stands for the database; the parser
item stands for the external resolver's successful answer; emitted events
are collected in order.  A failed post-write read-back surfaces as the
generic upsert failure carrying the original url (the catch block). -/
def upsertSavedItem (items : List SavedItem) (parserItem : ParserItem)
    (input0 : SavedItemUpsertInput) :
    Except ApiError (List SavedItem × SavedItem × List Emitted) :=
  let itemId := toString parserItem.itemId
  let existingItem := getSavedItemById items itemId
  let shouldSendFavoriteEvent :=
    input0.isFavorite && !(existingItem.elim false (fun e => e.isFavorite))
  let input :=
    match existingItem with
    | some e => if !input0.isFavorite then { input0 with isFavorite := e.isFavorite } else input0
    | none => input0
  let items2 := mutationUpsertSavedItem items parserItem input
  match getSavedItemById items2 itemId with
  | none => Except.error (ApiError.upsertFailure input0.url)
  | some upsertedItem =>
    let addOrUnarchive :=
      match existingItem with
      | some e =>
        if e.isArchived then [{ kind := EventType.UNARCHIVE_ITEM, item := some upsertedItem, tags := [] }]
        else []
      | none => [{ kind := EventType.ADD_ITEM, item := some upsertedItem, tags := [] }]
    let favEvent :=
      if shouldSendFavoriteEvent then
        [{ kind := EventType.FAVORITE_ITEM, item := some upsertedItem, tags := [] }]
      else []
    Except.ok (items2, upsertedItem, addOrUnarchive ++ favEvent)

/-- A `Tag` entity as returned by the tag read service: its name and the
ids of the saved items it is associated with. -/
structure Tag where
  name : String
  savedItems : List String
deriving DecidableEq

/-- The storage state for the tag mutations: the user's saved items, the
`(savedItemId, tagName)` association rows, and the existing Tag
entities. -/
structure TagState where
  savedItems : List SavedItem
  associations : List (String × String)
  tagNames : List String
deriving DecidableEq

/-- `SavedItemTagUpdateInput` (src part_002). -/
structure SavedItemTagUpdateInput where
  savedItemId : String
  tagIds : List String
deriving DecidableEq

/-- Modelled from the spec: `decodeBase64ToPlainText` (dataService/utils,
missing from src) decodes an opaque encoded tag id to the tag name; the
encoding is treated as transparent here, ids standing for their decoded
names. -/
def decodeBase64ToPlainText (id : String) : String := id

/-- Modelled from the spec: `TagDataService.getTagsByUserItem`
(queryServices, missing from src): the tags associated with the given
saved item, each with its associated saved-item ids. -/
def getTagsByUserItem (st : TagState) (savedItemId : String) : List Tag :=
  (st.associations.filter (fun a => a.1 == savedItemId)).map (fun a =>
    { name := a.2
      savedItems := (st.associations.filter (fun b => b.2 == a.2)).map (fun b => b.1) })

/-- Modelled from the spec: `TagMutationService.updateSavedItemTags`
(mutationServices, missing from src).  Spec section 4.4: fully replaces
the item's prior tag associations with the new set (replace semantics);
tags are created on first association and a Tag left with zero
associations is deleted. -/
def tagMutationUpdateSavedItemTags (st : TagState) (input : SavedItemTagUpdateInput) : TagState :=
  let names := input.tagIds.map (fun id => decodeBase64ToPlainText id)
  let associations2 :=
    (st.associations.filter (fun a => a.1 != input.savedItemId))
      ++ names.map (fun n => (input.savedItemId, n))
  let created := st.tagNames ++ names.filter (fun n => !(st.tagNames.contains n))
  let tagNames2 := created.filter (fun n => associations2.any (fun a => a.2 == n))
  { savedItems := st.savedItems, associations := associations2, tagNames := tagNames2 }

/-- Modelled from the spec: `TagMutationService.updateSavedItemRemoveTags`
(mutationServices, missing from src).  Spec section 4.4: deletes all
associations for one saved item; as a side effect, any Tag left with zero
associations is deleted. -/
def tagMutationRemoveTags (st : TagState) (savedItemId : String) : TagState :=
  let associations2 := st.associations.filter (fun a => a.1 != savedItemId)
  let tagNames2 := st.tagNames.filter (fun n => associations2.any (fun a => a.2 == n))
  { savedItems := st.savedItems, associations := associations2, tagNames := tagNames2 }

/-- `updateSavedItemTags` (src part_002 lines 224-256): reject an empty
tag-id list, require the saved item to exist, then replace its tag
associations, emit REPLACE_TAGS, and return the re-fetched item.  The
state is always returned alongside the outcome so that writes on error
paths stay observable.  The validation message reproduces the src string
concatenation (no space between the two fragments). -/
def updateSavedItemTags (st : TagState) (input : SavedItemTagUpdateInput) :
    TagState × Except ApiError (Option SavedItem × List Emitted) :=
  if input.tagIds.length ≤ 0 then
    (st, Except.error (ApiError.validation
      "SavedItemTagUpdateInput.tagIds cannot be empty. use mutation updateSavedItemRemoveTags toremove all tags"))
  else
    match getSavedItemById st.savedItems input.savedItemId with
    | none =>
      let sid := input.savedItemId
      (st, Except.error (ApiError.notFound s!"SavedItem Id {sid} does not exist"))
    | some _ =>
      let st2 := tagMutationUpdateSavedItemTags st input
      let savedItem := getSavedItemById st2.savedItems input.savedItemId
      (st2, Except.ok (savedItem,
        [{ kind := EventType.REPLACE_TAGS, item := savedItem
           tags := input.tagIds.map (fun id => decodeBase64ToPlainText id) }]))

/-- `updateSavedItemRemoveTags` (src part_002 lines 267-295): read the
to-be-cleared tags, clear the associations first (src comment: "clear
first, so we can get rid of noisy data if savedItem doesn't exist"), only
then check that the saved item exists; on success emit CLEAR_TAGS with the
pre-read tag names.  The state is always returned alongside the outcome. -/
def updateSavedItemRemoveTags (st : TagState) (savedItemId : String) :
    TagState × Except ApiError (SavedItem × List Emitted) :=
  let tagsCleared := getTagsByUserItem st savedItemId
  let st2 := tagMutationRemoveTags st savedItemId
  match getSavedItemById st2.savedItems savedItemId with
  | none =>
    let sid := savedItemId
    (st2, Except.error (ApiError.notFound s!"SavedItem Id {sid} does not exist"))
  | some savedItem =>
    (st2, Except.ok (savedItem,
      [{ kind := EventType.CLEAR_TAGS, item := some savedItem
         tags := tagsCleared.map (fun t => t.name) }]))

/-- The two database connections available to a request context
(spec section 5: replicas may lag; mutations must use the primary). -/
inductive DbClient where
  | replica : DbClient
  | primary : DbClient
deriving DecidableEq

/-- Modelled from the spec: `writeClient` (database/client, missing from
src) returns the primary (write) connection. -/
def writeClient : DbClient := DbClient.primary

/-- The slice of the request context the resolver wiring mutates
(src part_001: `context.dbClient`). -/
structure ResolverCtx where
  dbClient : DbClient
deriving DecidableEq

/-- `executeMutation` (src part_001 lines 240-251): wrap a mutation
resolver so that the context's database client is changed to the write
client before the mutation body runs. -/
def executeMutation {Parent Args R : Type} (mutate : Parent → Args → ResolverCtx → R) :
    Parent → Args → ResolverCtx → R :=
  fun parent args context => mutate parent args { context with dbClient := writeClient }

/-- A named resolver entry of the `Mutation` object (src part_001). -/
structure NamedResolver (Parent Args R : Type) where
  name : String
  fn : Parent → Args → ResolverCtx → R

/-- The rebuild of `resolvers.Mutation` (src part_001 lines 224-233):
`Object.keys(...).reduce` re-registers every mutation resolver wrapped in
`executeMutation`, embedded as a left fold over the entries. -/
def wrapMutations {Parent Args R : Type} (mutations : List (NamedResolver Parent Args R)) :
    List (NamedResolver Parent Args R) :=
  mutations.foldl (fun acc m => acc ++ [{ name := m.name, fn := executeMutation m.fn }]) []

/-- The names registered under `resolvers.Mutation` (src part_001 lines
206-221). -/
def mutationResolverNames : List String :=
  ["upsertSavedItem", "updateSavedItemFavorite", "updateSavedItemUnFavorite",
   "updateSavedItemArchive", "updateSavedItemUnArchive", "deleteSavedItem",
   "updateSavedItemUnDelete", "updateSavedItemTags", "updateSavedItemRemoveTags",
   "createTags", "updateTag", "deleteSavedItemTags", "deleteTag", "replaceSavedItemTags"]

/-! Concrete sample data for counterexamples and witnesses. -/

/-- A raw list row: item 10 of user 1, already archived at time 5. -/
def sampleArchivedRow : RawListResult :=
  { api_id := "api", api_id_updated := 0, favorite := 0, given_url := "https://example.com/a"
    item_id := 10, resolved_id := 10, status := 1, time_added := MysqlDate.time 1
    time_favorited := MysqlDate.zero, time_read := MysqlDate.time 5
    time_updated := MysqlDate.time 2, title := "a", user_id := 1 }

/-- A raw list row: item 10 of user 1, unread. -/
def sampleUnreadRow : RawListResult :=
  { api_id := "api", api_id_updated := 0, favorite := 0, given_url := "https://example.com/a"
    item_id := 10, resolved_id := 10, status := 0, time_added := MysqlDate.time 1
    time_favorited := MysqlDate.zero, time_read := MysqlDate.zero
    time_updated := MysqlDate.time 2, title := "a", user_id := 1 }

/-- A raw list row whose status code 9 is outside the mapping domain. -/
def sampleStatus9Row : RawListResult :=
  { api_id := "api", api_id_updated := 0, favorite := 1, given_url := "https://example.com/b"
    item_id := 11, resolved_id := 11, status := 9, time_added := MysqlDate.time 1
    time_favorited := MysqlDate.time 4, time_read := MysqlDate.time 5
    time_updated := MysqlDate.time 2, title := "b", user_id := 1 }

/-- A raw list row: archived (status code 1) but with the zero-date
sentinel in `time_read`, and unfavorited with the sentinel in
`time_favorited`. -/
def sampleZeroReadRow : RawListResult :=
  { api_id := "api", api_id_updated := 0, favorite := 0, given_url := "https://example.com/c"
    item_id := 12, resolved_id := 12, status := 1, time_added := MysqlDate.time 1
    time_favorited := MysqlDate.zero, time_read := MysqlDate.zero
    time_updated := MysqlDate.time 2, title := "c", user_id := 1 }

/-- An existing favorited, unarchived saved item. -/
def sampleFavItem : SavedItem :=
  { id := "42", url := "https://example.com/f", isFavorite := true, isArchived := false }

/-- An existing archived, unfavorited saved item. -/
def sampleArchItem : SavedItem :=
  { id := "42", url := "https://example.com/f", isFavorite := false, isArchived := true }

/-- A tag state whose only association belongs to a saved item id that
does not exist in the store. -/
def sampleTagState : TagState :=
  { savedItems := [sampleFavItem]
    associations := [("99", "news")]
    tagNames := ["news"] }

/-- The saved item produced by upserting url n as item 42 with
`isFavorite = true` into an empty store. -/
def sampleAddedItem : SavedItem :=
  { id := "42", url := "https://example.com/n", isFavorite := true, isArchived := false }

/-- The ADD_ITEM event for `sampleAddedItem`. -/
def sampleAddEvent : Emitted :=
  { kind := EventType.ADD_ITEM, item := some sampleAddedItem, tags := [] }

/-- The FAVORITE_ITEM event for `sampleAddedItem`. -/
def sampleFavEvent : Emitted :=
  { kind := EventType.FAVORITE_ITEM, item := some sampleAddedItem, tags := [] }

/-! ## Helper lemmas -/

theorem statusMap_eq_archived (n : Nat) : statusMap n = some SaveStatus.ARCHIVED ↔ n = 1 := by
  unfold statusMap
  split <;> simp_all

theorem statusMap_eq_deleted (n : Nat) : statusMap n = some SaveStatus.DELETED ↔ n = 2 := by
  unfold statusMap
  split <;> simp_all

theorem statusMap_eq_none (n : Nat) :
    statusMap n = none ↔ n ≠ 0 ∧ n ≠ 1 ∧ n ≠ 2 ∧ n ≠ 3 := by
  unfold statusMap
  split <;> simp_all

theorem mysqlDateConvert_eq_none (d : MysqlDate) :
    mysqlDateConvert d = none ↔ d = MysqlDate.zero := by
  cases d <;> simp [mysqlDateConvert]

/-- The composite of `convert` and `transformListRow`, characterized field
by field on the raw row. -/
theorem transformListRow_convert (row : RawListResult) :
    transformListRow (convert row) =
      { archived := row.status == 1
        archivedAt := if row.status = 1 then mysqlDateConvert row.time_read else none
        createdAt := mysqlDateConvert row.time_added
        deletedAt := if row.status = 2 then mysqlDateConvert row.time_updated else none
        favorite := row.favorite == 1
        favoritedAt := if row.favorite = 1 then mysqlDateConvert row.time_favorited else none
        givenUrl := row.given_url
        id := toString row.item_id
        resolvedId := toString row.resolved_id
        status := statusMap row.status
        title := row.title
        updatedAt := mysqlDateConvert row.time_updated } := by
  unfold transformListRow convert
  refine PocketSave.mk.injEq .. |>.mpr ?_
  refine ⟨?_, ?_, rfl, ?_, ?_, rfl, rfl, rfl, rfl, rfl, rfl, rfl⟩
  · rw [show (row.status == 1) = decide (row.status = 1) by by_cases h : row.status = 1 <;> simp [h]]
    simp [statusMap_eq_archived]
  · by_cases h : row.status = 1
    · simp [h, statusMap_eq_archived]
    · rw [if_neg, if_neg h]
      rw [statusMap_eq_archived]
      exact h
  · by_cases h : row.status = 2
    · simp [h, statusMap_eq_deleted]
    · rw [if_neg, if_neg h]
      rw [statusMap_eq_deleted]
      exact h
  · by_cases h : row.favorite = 1 <;> simp [h]

/-! ## C5: behaviour of the row transform on out-of-domain status codes -/

/-- C5 counterexample: the row transform does not fail on a status code
outside the known mapping domain.  `convert` applied to a row with status
code 9 returns a complete row whose `status` is silently `undefined`
(`none`); there is no `MalformedRowError` in the transform's code path. -/
theorem convert_out_of_domain_counterexample :
    convert sampleStatus9Row =
      { api_id := "api", api_id_updated := 0, favorite := 1
        given_url := "https://example.com/b", item_id := 11, resolved_id := 11
        status := none, time_added := some 1, time_favorited := some 4
        time_read := some 5, time_updated := some 2, title := "b", user_id := 1 } := rfl

/-- C5 (amended): for every raw row whose integer status code is outside
the known mapping domain {0, 1, 2, 3}, `convert` still returns a row —
its `status` becomes `undefined` (`none`) exactly for such codes, and the
rest of the row is produced as usual; no error is raised and no default
status is substituted. -/
theorem convert_status_none_iff_out_of_domain (row : RawListResult) :
    ((convert row).status = none ↔
      row.status ≠ 0 ∧ row.status ≠ 1 ∧ row.status ≠ 2 ∧ row.status ≠ 3)
    ∧ (convert row).item_id = row.item_id
    ∧ (convert row).given_url = row.given_url :=
  ⟨statusMap_eq_none row.status, rfl, rfl⟩

/-! ## C6: archivedAt presence versus ARCHIVED status -/

/-- C6 counterexample: a raw row with status code 1 (ARCHIVED) whose
`time_read` column holds the zero-date sentinel transforms to an entity
with `status = ARCHIVED` but `archivedAt` absent, so `archivedAt` present
iff `status == ARCHIVED` fails on that row. -/
theorem archived_zero_read_counterexample :
    (transformListRow (convert sampleZeroReadRow)).status = some SaveStatus.ARCHIVED
    ∧ (transformListRow (convert sampleZeroReadRow)).archived = true
    ∧ (transformListRow (convert sampleZeroReadRow)).archivedAt = none :=
  ⟨rfl, rfl, rfl⟩

/-- C6 (amended): for every raw list row, the transformed entity has
`archivedAt` equal to the converted `time_read` when the status code is
ARCHIVED and absent otherwise; hence `archivedAt` is present iff
`status == ARCHIVED` and `time_read` is not the zero-date sentinel — an
archived row with a sentinel `time_read` keeps `status = ARCHIVED` with
`archivedAt` absent. -/
theorem transform_archivedAt_characterization (row : RawListResult) :
    (transformListRow (convert row)).archivedAt
        = (if row.status = 1 then mysqlDateConvert row.time_read else none)
    ∧ (transformListRow (convert row)).archived = (row.status == 1)
    ∧ (transformListRow (convert row)).archivedAt.isSome
        = ((row.status == 1) && (row.time_read != MysqlDate.zero)) := by
  rw [transformListRow_convert]
  refine ⟨rfl, rfl, ?_⟩
  by_cases h : row.status = 1
  · cases row.time_read <;> simp [h, mysqlDateConvert]
  · simp [h]

/-! ## C7: the zero-date sentinel is normalized to absent -/

/-- C7: for every raw row, every timestamp of the transformed entity is
obtained through `mysqlDateConvert`, which yields absent exactly on the
all-zero sentinel, so a sentinel date column never surfaces as a literal
timestamp; in particular a sentinel `time_favorited` yields
`favoritedAt = absent` (whatever the favorite flag, hence also when
`favorite = 0`). -/
theorem transform_zero_sentinel_absent (row : RawListResult) :
    (transformListRow (convert row)).favoritedAt
        = (if row.favorite = 1 then mysqlDateConvert row.time_favorited else none)
    ∧ (transformListRow (convert row)).createdAt = mysqlDateConvert row.time_added
    ∧ (transformListRow (convert row)).updatedAt = mysqlDateConvert row.time_updated
    ∧ (transformListRow (convert row)).deletedAt
        = (if row.status = 2 then mysqlDateConvert row.time_updated else none)
    ∧ (transformListRow (convert row)).archivedAt
        = (if row.status = 1 then mysqlDateConvert row.time_read else none)
    ∧ (∀ d : MysqlDate, mysqlDateConvert d = none ↔ d = MysqlDate.zero)
    ∧ (row.time_favorited = MysqlDate.zero →
        (transformListRow (convert row)).favoritedAt = none) := by
  rw [transformListRow_convert]
  refine ⟨rfl, rfl, rfl, rfl, rfl, mysqlDateConvert_eq_none, ?_⟩
  intro h
  rw [h]
  split <;> simp [mysqlDateConvert]

/-- C7 witness: the sentinel row `sampleZeroReadRow` (`favorite = 0`,
`time_favorited` the all-zero sentinel) transforms with
`favoritedAt = absent`. -/
theorem transform_zero_sentinel_absent_witness :
    (transformListRow (convert sampleZeroReadRow)).favoritedAt = none :=
  (transform_zero_sentinel_absent sampleZeroReadRow).2.2.2.2.2.2 rfl

/-! ## Helper lemmas for the bulk archive operation -/

theorem archiveUpd_user_id (u : Nat) (ids : List Nat) (ts : Nat) (r : RawListResult) :
    (archiveUpd u ids ts r).user_id = r.user_id := by
  unfold archiveUpd
  split <;> rfl

theorem archiveUpd_item_id (u : Nat) (ids : List Nat) (ts : Nat) (r : RawListResult) :
    (archiveUpd u ids ts r).item_id = r.item_id := by
  unfold archiveUpd
  split <;> rfl

theorem archiveUpd_pos (u : Nat) (ids : List Nat) (ts : Nat) (r : RawListResult)
    (h : r.user_id = u ∧ r.item_id ∈ ids ∧ r.status ≠ 1) :
    archiveUpd u ids ts r = { r with status := 1, time_read := MysqlDate.time ts } := by
  unfold archiveUpd
  rw [if_pos h]

theorem archiveUpd_neg (u : Nat) (ids : List Nat) (ts : Nat) (r : RawListResult)
    (h : ¬(r.user_id = u ∧ r.item_id ∈ ids ∧ r.status ≠ 1)) :
    archiveUpd u ids ts r = r := by
  unfold archiveUpd
  rw [if_neg h]

theorem archiveUpd_status_of_match (u : Nat) (ids : List Nat) (ts : Nat) (r : RawListResult)
    (hu : r.user_id = u) (hm : r.item_id ∈ ids) :
    (archiveUpd u ids ts r).status = 1 := by
  rcases Decidable.em (r.status = 1) with h1 | h1
  · rw [archiveUpd_neg u ids ts r (fun hc => hc.2.2 h1)]
    exact h1
  · rw [archiveUpd_pos u ids ts r ⟨hu, hm, h1⟩]

theorem archiveUpd_archiveUpd (u : Nat) (ids : List Nat) (ts1 ts2 : Nat) (r : RawListResult) :
    archiveUpd u ids ts2 (archiveUpd u ids ts1 r) = archiveUpd u ids ts1 r := by
  by_cases h : r.user_id = u ∧ r.item_id ∈ ids ∧ r.status ≠ 1
  · rw [archiveUpd_pos u ids ts1 r h]
    exact archiveUpd_neg u ids ts2 _ (fun hc => hc.2.2 rfl)
  · rw [archiveUpd_neg u ids ts1 r h]
    exact archiveUpd_neg u ids ts2 r h

theorem rowExists_map_archiveUpd (store : List RawListResult) (u : Nat) (ids : List Nat)
    (ts u2 i : Nat) :
    rowExists (store.map (archiveUpd u ids ts)) u2 i = rowExists store u2 i := by
  induction store with
  | nil => rfl
  | cons r t ih =>
    unfold rowExists at *
    simp only [List.map_cons, List.any_cons, archiveUpd_user_id, archiveUpd_item_id]
    rw [ih]

theorem formatSave_errors (missing : List String) (updated : List ListResult) (path : String) :
    (formatSaveWriteMutationPayload missing updated path).errors
      = missing.map (fun m =>
          { message := (notFoundPayload "id" m).message, typename := "NotFound", path := path }) := by
  unfold formatSaveWriteMutationPayload
  cases missing <;> simp [notFoundPayload]

theorem formatSave_save (missing : List String) (updated : List ListResult) (path : String) :
    (formatSaveWriteMutationPayload missing updated path).save = updated.map transformListRow := rfl

theorem saveArchive_snd (store : List RawListResult) (userId : Nat) (ids : List String)
    (ts : Nat) (path : String) :
    (saveArchive store userId ids ts path).2
      = formatSaveWriteMutationPayload
          (((uniqueArray (ids.map (fun id => parseIntId id))).filter
              (fun i => !(rowExists
                (store.map (archiveUpd userId (uniqueArray (ids.map (fun id => parseIntId id))) ts))
                userId i))).map (fun i => toString i))
          (((store.map (archiveUpd userId (uniqueArray (ids.map (fun id => parseIntId id))) ts)).filter
              (fun r => r.user_id == userId
                && (uniqueArray (ids.map (fun id => parseIntId id))).contains r.item_id)).map convert)
          path := rfl

theorem saveArchive_errors (store : List RawListResult) (userId : Nat) (ids : List String)
    (ts : Nat) (path : String) :
    (saveArchive store userId ids ts path).2.errors
      = ((uniqueArray (ids.map (fun id => parseIntId id))).filter
          (fun i => !(rowExists store userId i))).map
          (fun i => { message := (notFoundPayload "id" (toString i)).message
                      typename := "NotFound", path := path }) := by
  rw [saveArchive_snd, formatSave_errors, List.map_map]
  congr 1
  apply List.filter_congr
  intro i _
  rw [rowExists_map_archiveUpd]

theorem saveArchive_save (store : List RawListResult) (userId : Nat) (ids : List String)
    (ts : Nat) (path : String) :
    (saveArchive store userId ids ts path).2.save
      = (store.filter (fun r => r.user_id == userId
            && (uniqueArray (ids.map (fun id => parseIntId id))).contains r.item_id)).map
          (fun r => transformListRow (convert
            (archiveUpd userId (uniqueArray (ids.map (fun id => parseIntId id))) ts r))) := by
  rw [saveArchive_snd, formatSave_save, List.filter_map, List.map_map, List.map_map]
  congr 1
  apply List.filter_congr
  intro r _
  simp only [Function.comp_apply, archiveUpd_user_id, archiveUpd_item_id]

/-! ## C1: partial success shape of the bulk archive payload -/

/-- C1 counterexample: archiving a batch that contains an already-archived
save (item 10, archived at time 5) with supplied timestamp 7 returns that
save in the save list with its prior `archivedAt = 5`, not the supplied
timestamp — so "each with archivedAt equal to the supplied timestamp"
fails — while the errors list is empty. -/
theorem saveArchive_timestamp_counterexample :
    (saveArchive [sampleArchivedRow] 1 ["10"] 7 "saveArchive").2.save.map
        (fun p => p.archivedAt) = [some 5]
    ∧ (saveArchive [sampleArchivedRow] 1 ["10"] 7 "saveArchive").2.save.map
        (fun p => p.archivedAt) ≠ [some 7]
    ∧ (saveArchive [sampleArchivedRow] 1 ["10"] 7 "saveArchive").2.errors = [] := by
  refine ⟨by decide, by decide, by decide⟩

/-- C1 (amended): for every submitted identifier list, the bulk archive
reports partial success instead of aborting: the errors list is exactly
one NotFound entry (with the resolver path attached) per unique submitted
identifier that does not exist for the caller; the save list is exactly
the row-transform of the caller's store rows matching the remaining
identifiers, each with status ARCHIVED; and a matched row gets
`archivedAt` equal to the supplied timestamp when it was not already
archived, while an already-archived row retains its prior `archivedAt`
(the no-op case forced by the counterexample). -/
theorem saveArchive_partial_success (store : List RawListResult) (userId : Nat)
    (ids : List String) (ts : Nat) (path : String) :
    (saveArchive store userId ids ts path).2.errors
        = ((uniqueArray (ids.map (fun id => parseIntId id))).filter
            (fun i => !(rowExists store userId i))).map
            (fun i => { message := (notFoundPayload "id" (toString i)).message
                        typename := "NotFound", path := path })
    ∧ ((uniqueArray (ids.map (fun id => parseIntId id))).filter
          (fun i => !(rowExists store userId i))).Nodup
    ∧ (saveArchive store userId ids ts path).2.save
        = (store.filter (fun r => r.user_id == userId
              && (uniqueArray (ids.map (fun id => parseIntId id))).contains r.item_id)).map
            (fun r => transformListRow (convert
              (archiveUpd userId (uniqueArray (ids.map (fun id => parseIntId id))) ts r)))
    ∧ (saveArchive store userId ids ts path).2.save.all
          (fun p => p.status == some SaveStatus.ARCHIVED) = true
    ∧ (∀ r : RawListResult,
        (transformListRow (convert
            (archiveUpd userId (uniqueArray (ids.map (fun id => parseIntId id))) ts r))).archivedAt
          = if r.user_id = userId
                ∧ r.item_id ∈ uniqueArray (ids.map (fun id => parseIntId id))
                ∧ r.status ≠ 1
            then some ts
            else if r.status = 1 then mysqlDateConvert r.time_read else none) := by
  refine ⟨saveArchive_errors store userId ids ts path, ?_,
    saveArchive_save store userId ids ts path, ?_, ?_⟩
  · exact (List.nodup_dedup _).filter _
  · rw [saveArchive_save, List.all_eq_true]
    intro p hp
    obtain ⟨r, hr, rfl⟩ := List.mem_map.1 hp
    obtain ⟨hmem, hq⟩ := List.mem_filter.1 hr
    rw [Bool.and_eq_true] at hq
    obtain ⟨hu, hc⟩ := hq
    have hu2 : r.user_id = userId := beq_iff_eq.1 hu
    have hc2 : r.item_id ∈ uniqueArray (ids.map (fun id => parseIntId id)) := by
      simpa using hc
    have hst := archiveUpd_status_of_match userId _ ts r hu2 hc2
    simp only [Function.comp_apply, transformListRow_convert, hst]
    rfl
  · intro r
    by_cases h : r.user_id = userId
        ∧ r.item_id ∈ uniqueArray (ids.map (fun id => parseIntId id)) ∧ r.status ≠ 1
    · rw [archiveUpd_pos _ _ _ _ h, transformListRow_convert, if_pos h]
      simp [mysqlDateConvert]
    · rw [archiveUpd_neg _ _ _ _ h, transformListRow_convert, if_neg h]

/-! ## C2: re-archiving an already-archived save -/

/-- C2: a second bulk archive call over the same identifier is a no-op on
the stored state (so status stays ARCHIVED and `archivedAt` is unchanged
from the first call), and the save is still counted in the save list of
the second payload — identical to the first payload's save list — with no
error reported. -/
theorem saveArchive_rearchive_noop (store : List RawListResult) (userId : Nat) (s : String)
    (i ts1 ts2 : Nat) (path1 path2 : String)
    (hs : parseIntId s = i) (hex : rowExists store userId i = true) :
    (saveArchive (saveArchive store userId [s] ts1 path1).1 userId [s] ts2 path2).1
        = (saveArchive store userId [s] ts1 path1).1
    ∧ (saveArchive (saveArchive store userId [s] ts1 path1).1 userId [s] ts2 path2).2.errors = []
    ∧ (saveArchive (saveArchive store userId [s] ts1 path1).1 userId [s] ts2 path2).2.save
        = (saveArchive store userId [s] ts1 path1).2.save
    ∧ (saveArchive (saveArchive store userId [s] ts1 path1).1 userId [s] ts2 path2).2.save ≠ [] := by
  have hS : uniqueArray ([s].map (fun id => parseIntId id)) = [i] := by
    simp [uniqueArray, hs]
  have hfst : ∀ (st : List RawListResult) (ts : Nat) (path : String),
      (saveArchive st userId [s] ts path).1
        = st.map (archiveUpd userId [i] ts) := by
    intro st ts path
    show st.map (archiveUpd userId (uniqueArray ([s].map (fun id => parseIntId id))) ts) = _
    rw [hS]
  have hstate : (saveArchive (saveArchive store userId [s] ts1 path1).1 userId [s] ts2 path2).1
      = (saveArchive store userId [s] ts1 path1).1 := by
    rw [hfst, hfst, List.map_map]
    apply List.map_congr_left
    intro r _
    exact archiveUpd_archiveUpd userId [i] ts1 ts2 r
  have hex1 : rowExists (saveArchive store userId [s] ts1 path1).1 userId i = true := by
    rw [hfst, rowExists_map_archiveUpd]
    exact hex
  refine ⟨hstate, ?_, ?_, ?_⟩
  · rw [saveArchive_errors, hS]
    simp [hex1]
  · rw [saveArchive_save, saveArchive_save, hS]
    rw [hfst store ts1 path1, List.filter_map, List.map_map]
    rw [show store.filter
          ((fun r => r.user_id == userId && [i].contains r.item_id) ∘ archiveUpd userId [i] ts1)
        = store.filter (fun r => r.user_id == userId && [i].contains r.item_id) from
      List.filter_congr (fun r _ => by
        simp only [Function.comp_apply, archiveUpd_user_id, archiveUpd_item_id])]
    apply List.map_congr_left
    intro r _
    simp only [Function.comp_apply, archiveUpd_archiveUpd]
  · rw [saveArchive_save, hS]
    obtain ⟨r, hr, hpr⟩ := List.any_eq_true.1 hex1
    have hq : (r.user_id == userId && [i].contains r.item_id) = true := by
      rw [Bool.and_eq_true] at hpr ⊢
      refine ⟨hpr.1, ?_⟩
      have : ([i].contains r.item_id) = (r.item_id == i) := by
        by_cases h : r.item_id = i <;> simp [h]
      rw [this]
      exact hpr.2
    exact List.ne_nil_of_mem (List.mem_map_of_mem _ (List.mem_filter.2 ⟨hr, hq⟩))

/-- C2 witness: archiving the unread item 10 at time 3 and then again at
time 7 leaves the store of the first call unchanged, reports no error,
and returns the same save list as the first call (non-empty). -/
theorem saveArchive_rearchive_noop_witness :
    (saveArchive (saveArchive [sampleUnreadRow] 1 ["10"] 3 "p").1 1 ["10"] 7 "q").1
        = (saveArchive [sampleUnreadRow] 1 ["10"] 3 "p").1
    ∧ (saveArchive (saveArchive [sampleUnreadRow] 1 ["10"] 3 "p").1 1 ["10"] 7 "q").2.errors = []
    ∧ (saveArchive (saveArchive [sampleUnreadRow] 1 ["10"] 3 "p").1 1 ["10"] 7 "q").2.save
        = (saveArchive [sampleUnreadRow] 1 ["10"] 3 "p").2.save
    ∧ (saveArchive (saveArchive [sampleUnreadRow] 1 ["10"] 3 "p").1 1 ["10"] 7 "q").2.save ≠ [] :=
  saveArchive_rearchive_noop [sampleUnreadRow] 1 "10" 10 3 7 "p" "q" rfl (by decide)

/-! ## Helper lemmas for the upsert orchestrator -/

theorem find?_update_list (l : List SavedItem) (id : String) (f : SavedItem → SavedItem)
    (hid : ∀ it, (f it).id = it.id) :
    (l.map (fun it => if it.id == id then f it else it)).find? (fun it => it.id == id)
      = (l.find? (fun it => it.id == id)).map (fun it => if it.id == id then f it else it) := by
  rw [List.find?_map]
  rw [show ((fun it => it.id == id) ∘ fun it => if it.id == id then f it else it)
        = (fun it : SavedItem => it.id == id) from funext (fun it => by
          by_cases hc : it.id = id <;> simp [Function.comp, hc, hid])]

/-- Upserting over an existing item rewrites exactly that item's row:
the read-back after the mutation-service write returns the existing item
updated with the input's url and favorite flag, unarchived. -/
theorem getSavedItemById_upsert_existing (items : List SavedItem) (parserItem : ParserItem)
    (input : SavedItemUpsertInput) (e : SavedItem)
    (he : getSavedItemById items (toString parserItem.itemId) = some e) :
    getSavedItemById (mutationUpsertSavedItem items parserItem input)
        (toString parserItem.itemId)
      = some { e with url := input.url, isFavorite := input.isFavorite, isArchived := false } := by
  unfold getSavedItemById at he
  have hmem := List.mem_of_find?_eq_some he
  have hpe := List.find?_some he
  have hany : items.any (fun it => it.id == toString parserItem.itemId) = true :=
    List.any_eq_true.2 ⟨e, hmem, hpe⟩
  unfold mutationUpsertSavedItem getSavedItemById
  rw [if_pos hany,
    find?_update_list items (toString parserItem.itemId)
      (fun it => { it with url := input.url, isFavorite := input.isFavorite, isArchived := false })
      (fun it => rfl),
    he]
  have hpe2 : e.id = toString parserItem.itemId := beq_iff_eq.1 hpe
  simp [hpe2]

/-- Upserting a new item appends exactly one row carrying the input's url
and favorite flag, and the read-back returns it. -/
theorem getSavedItemById_upsert_new (items : List SavedItem) (parserItem : ParserItem)
    (input : SavedItemUpsertInput)
    (he : getSavedItemById items (toString parserItem.itemId) = none) :
    getSavedItemById (mutationUpsertSavedItem items parserItem input)
        (toString parserItem.itemId)
      = some { id := toString parserItem.itemId, url := input.url
               isFavorite := input.isFavorite, isArchived := false } := by
  unfold getSavedItemById at he
  have hany : items.any (fun it => it.id == toString parserItem.itemId) = false := by
    cases hc : items.any (fun it => it.id == toString parserItem.itemId)
    · rfl
    · exfalso
      obtain ⟨x, hx, hpx⟩ := List.any_eq_true.1 hc
      rw [List.find?_eq_none] at he
      exact (he x hx) hpx
  unfold mutationUpsertSavedItem getSavedItemById
  rw [if_neg (by simp [hany]), List.find?_append, he]
  simp [List.find?]

/-! ## C3: upsert never unfavorites -/

/-- C3: for every upsert call where an item already exists for the
resolved item id and that existing item is favorited, a caller passing
`isFavorite = false` has the input overwritten, and the item returned by
the successful upsert retains `isFavorite = true`. -/
theorem upsert_never_unfavorites (items : List SavedItem) (parserItem : ParserItem)
    (input : SavedItemUpsertInput) (e : SavedItem)
    (result : List SavedItem × SavedItem × List Emitted)
    (he : getSavedItemById items (toString parserItem.itemId) = some e)
    (hfav : e.isFavorite = true) (hreq : input.isFavorite = false)
    (hok : upsertSavedItem items parserItem input = Except.ok result) :
    result.2.1.isFavorite = true := by
  simp only [upsertSavedItem, he, hreq] at hok
  rw [getSavedItemById_upsert_existing items parserItem _ e he] at hok
  simp at hok
  rw [← hok]
  exact hfav

/-- C3 witness: upserting the existing favorited item 42 with
`isFavorite = false` keeps the item favorited. -/
theorem upsert_never_unfavorites_witness : sampleFavItem.isFavorite = true :=
  upsert_never_unfavorites [sampleFavItem] { itemId := 42, resolvedId := some 42 }
    { url := "https://example.com/f", isFavorite := false } sampleFavItem
    ([sampleFavItem], sampleFavItem, []) rfl rfl rfl rfl

/-! ## C4: exactly one event per classified transition -/

/-- C4: for every successful upsert call, the emitted events are exactly
one add-or-unarchive classification plus at most one favorite event:
ADD_ITEM iff no item previously existed, UNARCHIVE_ITEM iff an item
existed and was archived, FAVORITE_ITEM iff the caller requested
`isFavorite = true` and the pre-existing item (if any) was not already
favorited — so a new add that is also a new favorite emits exactly the
two distinct events. -/
theorem upsert_event_emission (items : List SavedItem) (parserItem : ParserItem)
    (input : SavedItemUpsertInput)
    (result : List SavedItem × SavedItem × List Emitted)
    (hok : upsertSavedItem items parserItem input = Except.ok result) :
    result.2.2.map (fun ev => ev.kind)
        = ((match getSavedItemById items (toString parserItem.itemId) with
            | none => [EventType.ADD_ITEM]
            | some e => if e.isArchived then [EventType.UNARCHIVE_ITEM] else [])
          ++ (if input.isFavorite
                && !((getSavedItemById items (toString parserItem.itemId)).elim false
                      (fun e => e.isFavorite))
              then [EventType.FAVORITE_ITEM] else []))
    ∧ result.2.2.countP (fun ev => ev.kind == EventType.ADD_ITEM)
        = (if (getSavedItemById items (toString parserItem.itemId)).isNone then 1 else 0)
    ∧ result.2.2.countP (fun ev => ev.kind == EventType.UNARCHIVE_ITEM)
        = (match getSavedItemById items (toString parserItem.itemId) with
            | none => 0
            | some e => if e.isArchived then 1 else 0)
    ∧ result.2.2.countP (fun ev => ev.kind == EventType.FAVORITE_ITEM)
        = (if input.isFavorite
              && !((getSavedItemById items (toString parserItem.itemId)).elim false
                    (fun e => e.isFavorite))
            then 1 else 0) := by
  cases he : getSavedItemById items (toString parserItem.itemId) with
  | none =>
    simp only [upsertSavedItem, he] at hok
    rw [getSavedItemById_upsert_new items parserItem input he] at hok
    simp at hok
    rw [← hok]
    cases hf : input.isFavorite <;>
      simp [hf, List.countP_cons, List.countP_nil]
  | some e =>
    simp only [upsertSavedItem, he] at hok
    cases hf : input.isFavorite
    · simp only [hf] at hok
      rw [getSavedItemById_upsert_existing items parserItem _ e he] at hok
      simp at hok
      rw [← hok]
      cases ha : e.isArchived <;>
        simp [hf, ha, List.countP_cons, List.countP_nil]
    · simp only [hf] at hok
      rw [getSavedItemById_upsert_existing items parserItem _ e he] at hok
      simp at hok
      rw [← hok]
      cases ha : e.isArchived <;> cases hef : e.isFavorite <;>
        simp [hf, ha, hef, List.countP_cons, List.countP_nil]

/-- C4 witness: an upsert into an empty store with `isFavorite = true` is
both a new add and a new favorite and emits exactly the two distinct
events ADD_ITEM and FAVORITE_ITEM, once each. -/
theorem upsert_event_emission_witness :
    [sampleAddEvent, sampleFavEvent].map (fun ev => ev.kind)
        = [EventType.ADD_ITEM, EventType.FAVORITE_ITEM]
    ∧ [sampleAddEvent, sampleFavEvent].countP (fun ev => ev.kind == EventType.ADD_ITEM) = 1
    ∧ [sampleAddEvent, sampleFavEvent].countP (fun ev => ev.kind == EventType.UNARCHIVE_ITEM) = 0
    ∧ [sampleAddEvent, sampleFavEvent].countP (fun ev => ev.kind == EventType.FAVORITE_ITEM) = 1 :=
  upsert_event_emission [] { itemId := 42, resolvedId := none }
    { url := "https://example.com/n", isFavorite := true }
    ([sampleAddedItem], sampleAddedItem, [sampleAddEvent, sampleFavEvent]) rfl

/-! ## C8: guards of the tag replacement mutation -/

/-- C8: `updateSavedItemTags` rejects an empty tag-id list with the
ValidationError before touching storage (the state comes back unchanged
and the error does not depend on the store), and for a saved item that
does not exist for the caller it fails with NotFoundError, again with the
state unchanged — no tag association is replaced on either error path. -/
theorem updateSavedItemTags_guards :
    (∀ (st : TagState) (input : SavedItemTagUpdateInput), input.tagIds = [] →
        updateSavedItemTags st input
          = (st, Except.error (ApiError.validation
              "SavedItemTagUpdateInput.tagIds cannot be empty. use mutation updateSavedItemRemoveTags toremove all tags")))
    ∧ (∀ (st : TagState) (input : SavedItemTagUpdateInput), input.tagIds ≠ [] →
        getSavedItemById st.savedItems input.savedItemId = none →
        updateSavedItemTags st input
          = (st, Except.error (ApiError.notFound
              ("SavedItem Id " ++ input.savedItemId ++ " does not exist")))) := by
  constructor
  · intro st input h
    simp [updateSavedItemTags, h]
  · intro st input h hn
    have hlen : ¬ input.tagIds.length ≤ 0 := by
      intro hc
      exact h (List.eq_nil_of_length_eq_zero (Nat.le_zero.1 hc))
    simp [updateSavedItemTags, hlen, hn]
    rfl

/-- C8 witness: an empty tag-id list is rejected with the ValidationError
and an unknown saved item with the NotFoundError, both leaving the sample
state untouched. -/
theorem updateSavedItemTags_guards_witness :
    updateSavedItemTags sampleTagState { savedItemId := "42", tagIds := [] }
        = (sampleTagState, Except.error (ApiError.validation
            "SavedItemTagUpdateInput.tagIds cannot be empty. use mutation updateSavedItemRemoveTags toremove all tags"))
    ∧ updateSavedItemTags sampleTagState { savedItemId := "99", tagIds := ["news"] }
        = (sampleTagState, Except.error (ApiError.notFound "SavedItem Id 99 does not exist")) :=
  ⟨updateSavedItemTags_guards.1 sampleTagState { savedItemId := "42", tagIds := [] } rfl,
   updateSavedItemTags_guards.2 sampleTagState { savedItemId := "99", tagIds := ["news"] }
     (by simp) rfl⟩

/-! ## C9: every mutation resolver runs against the write client -/

theorem wrapMutations_map {Parent Args R : Type}
    (mutations : List (NamedResolver Parent Args R)) :
    wrapMutations mutations
      = mutations.map (fun m => { name := m.name, fn := executeMutation m.fn }) := by
  have key : ∀ (l acc : List (NamedResolver Parent Args R)),
      l.foldl (fun acc m => acc ++ [{ name := m.name, fn := executeMutation m.fn }]) acc
        = acc ++ l.map (fun m => { name := m.name, fn := executeMutation m.fn }) := by
    intro l
    induction l with
    | nil => intro acc; simp
    | cons a t ih => intro acc; simp [ih]
  simpa [wrapMutations] using key mutations []

/-- C9: every resolver registered under Mutation is re-registered wrapped
in `executeMutation` (the rebuild preserves names and wraps each body),
and the wrapped body runs the mutation with the request context's database
client replaced by the write client — so reads through that context inside
the mutation see the primary connection. -/
theorem mutations_use_write_connection :
    (∀ (Parent Args R : Type) (f : Parent → Args → ResolverCtx → R)
        (parent : Parent) (args : Args) (c : ResolverCtx),
        executeMutation f parent args c = f parent args { c with dbClient := writeClient }
          ∧ ({ c with dbClient := writeClient } : ResolverCtx).dbClient = DbClient.primary)
    ∧ (∀ (Parent Args R : Type) (mutations : List (NamedResolver Parent Args R)),
        wrapMutations mutations
          = mutations.map (fun m => { name := m.name, fn := executeMutation m.fn })
        ∧ (wrapMutations mutations).map (fun m => m.name)
            = mutations.map (fun m => m.name)) :=
  ⟨fun _ _ _ _ _ _ _ => ⟨rfl, rfl⟩,
   fun _ _ _ l => ⟨wrapMutations_map l, by rw [wrapMutations_map, List.map_map]; rfl⟩⟩

/-- C9 witness: a resolver body reading the context's database client,
registered under the Mutation names and wrapped, observes the primary
connection even when the incoming request context carries a replica; the
wrapped registration keeps all fourteen mutation names. -/
theorem mutations_use_write_connection_witness :
    executeMutation (fun (_ : Unit) (_ : Unit) (c : ResolverCtx) => c.dbClient) () ()
        { dbClient := DbClient.replica } = DbClient.primary
    ∧ (wrapMutations (mutationResolverNames.map
          (fun n => ({ name := n
                       fn := fun (_ : Unit) (_ : Unit) (c : ResolverCtx) => c.dbClient }
            : NamedResolver Unit Unit DbClient)))).map (fun m => m.name)
        = mutationResolverNames :=
  ⟨(mutations_use_write_connection.1 Unit Unit DbClient
      (fun _ _ c => c.dbClient) () () { dbClient := DbClient.replica }).1,
   rfl⟩

/-! ## C10: tag removal mutates storage before the existence check -/

/-- C10: `updateSavedItemRemoveTags` clears the item's tag associations
before checking that the saved item exists: for a saved item id unknown to
the caller the call still performs the association deletion (with the
modelled orphan-tag garbage collection) and only then fails with the
NotFoundError — when the id had associations, the stored associations
have genuinely changed although the call failed. -/
theorem removeTags_mutates_before_notfound (st : TagState) (savedItemId : String)
    (hmiss : getSavedItemById st.savedItems savedItemId = none) :
    updateSavedItemRemoveTags st savedItemId
        = (tagMutationRemoveTags st savedItemId,
           Except.error (ApiError.notFound
             ("SavedItem Id " ++ savedItemId ++ " does not exist")))
    ∧ (tagMutationRemoveTags st savedItemId).associations.filter
        (fun a => a.1 == savedItemId) = []
    ∧ (st.associations.any (fun a => a.1 == savedItemId) = true →
        (tagMutationRemoveTags st savedItemId).associations ≠ st.associations) := by
  have hmiss2 : getSavedItemById (tagMutationRemoveTags st savedItemId).savedItems savedItemId
      = none := hmiss
  refine ⟨?_, ?_, ?_⟩
  · simp only [updateSavedItemRemoveTags]
    rw [hmiss2]
    rfl
  · have key : ∀ (l : List (String × String)),
        (l.filter (fun a => a.1 != savedItemId)).filter (fun a => a.1 == savedItemId) = [] := by
      intro l
      induction l with
      | nil => rfl
      | cons a t ih => by_cases h : a.1 = savedItemId <;> simp [h, ih]
    exact key st.associations
  · intro hany
    obtain ⟨x, hx, hpx⟩ := List.any_eq_true.1 hany
    have hlt : (st.associations.filter (fun a => a.1 != savedItemId)).length
        < st.associations.length := by
      rw [List.length_filter_lt_length_iff_exists]
      refine ⟨x, hx, ?_⟩
      simp only [bne]
      simp [beq_iff_eq.1 hpx]
    intro heq
    have : (st.associations.filter (fun a => a.1 != savedItemId)).length
        = st.associations.length := by
      rw [show (tagMutationRemoveTags st savedItemId).associations
            = st.associations.filter (fun a => a.1 != savedItemId) from rfl] at heq
      rw [heq]
    omega

/-- C10 witness: removing the tags of the unknown saved item 99, whose
single association is the tag news, deletes the association (and the
orphaned tag) and then fails with the NotFoundError. -/
theorem removeTags_mutates_before_notfound_witness :
    updateSavedItemRemoveTags sampleTagState "99"
        = (tagMutationRemoveTags sampleTagState "99",
           Except.error (ApiError.notFound "SavedItem Id 99 does not exist"))
    ∧ (tagMutationRemoveTags sampleTagState "99").associations.filter
        (fun a => a.1 == "99") = []
    ∧ (tagMutationRemoveTags sampleTagState "99").associations
        ≠ sampleTagState.associations :=
  ⟨(removeTags_mutates_before_notfound sampleTagState "99" rfl).1,
   (removeTags_mutates_before_notfound sampleTagState "99" rfl).2.1,
   (removeTags_mutates_before_notfound sampleTagState "99" rfl).2.2 (by decide)⟩

end ListApi
